import Mathlib

set_option autoImplicit false
set_option linter.unusedVariables false

/-
A shallow embedding of the typed-diskcache fan-out cache layer:
`typed_diskcache/implement/cache/fanout/main.py`,
`typed_diskcache/implement/cache/fanout/utils.py`,
`typed_diskcache/database/connection.py`,
`typed_diskcache/core/types.py` and `typed_diskcache/model.py`.

Machine-level Python values are modelled as follows: ints are `Int` (or `Nat`
where the source value is a count or an index), floats that the embedded code
only compares and passes through are `Rat`, paths are lists of path
components, and raised exceptions are the `Except` monad over an explicit
exception inductive mirroring the library's exception taxonomy.
-/

namespace TypedDiskcache

/-- Eviction policies, from `typed_diskcache.core.types.EvictionPolicy`:
none, least-recently-stored, least-recently-used, least-frequently-used. -/
inductive EvictionPolicy where
  | none
  | leastRecentlyStored
  | leastRecentlyUsed
  | leastFrequentlyUsed
  deriving DecidableEq, Repr

/-- Exceptions observable by the fan-out layer. `operationalError` stands for
`sqlalchemy.exc.OperationalError`; the `diskcache*` constructors stand for
`TypedDiskcacheError` and its subclasses (`KeyError`, `ValueError`, and
`TimeoutError`, the last carrying the partial count found in `exc.args[0]`);
`notImplementedError` stands for Python's built-in `NotImplementedError`;
`otherError` stands for any exception outside those families. -/
inductive CacheExc where
  | operationalError
  | diskcacheError
  | diskcacheKeyError
  | diskcacheValueError
  | diskcacheTimeoutError (count : Int)
  | notImplementedError
  | otherError
  deriving DecidableEq, Repr

/-- Whether an exception is matched by the fan-out router's clause
`except (OperationalError, TypedDiskcacheError)` in
`fanout/main.py`: storage errors and every cache-library error (including
its Key, Value and Timeout subclasses) are matched; anything else escapes. -/
def CacheExc.caughtByFanout : CacheExc → Bool
  | .operationalError => true
  | .diskcacheError => true
  | .diskcacheKeyError => true
  | .diskcacheValueError => true
  | .diskcacheTimeoutError _ => true
  | .notImplementedError => false
  | .otherError => false

/-- Whether an exception is the library's Timeout-kind error. -/
def CacheExc.isTimeout : CacheExc → Bool
  | .diskcacheTimeoutError _ => true
  | _ => false

/-- Result wrapper, from `typed_diskcache.core.types.Container`: the key, the
value, whether the value is the caller's fallback default, the expire time
and the tags. -/
structure Container (K V : Type) where
  key : Option K := Option.none
  value : Option V
  default : Bool
  expire_time : Option Rat := Option.none
  tags : Option (List String) := Option.none
  deriving DecidableEq, Repr

/-- Modelled from the spec: `typed_diskcache.implement.cache.utils.wrap_default`
is not among the provided sources. Per the spec, a degraded `get`/`pop`
"returns Container(default, default=True)": a container holding the caller's
default value and flagged as a default result. -/
def wrap_default {K V : Type} (default : Option V) : Container K V :=
  { value := default, default := true }

/-- One shard, an instance of `typed_diskcache.implement.cache.default.Cache`,
viewed abstractly through the operations the fan-out router invokes on it.
Each operation maps its arguments to a returned value or a raised exception.
The fields `getitem`, `setitem`, `contains` and `delitem` stand for the
shard's `__getitem__`, `__setitem__`, `__contains__` and `__delitem__`. -/
structure ShardOps (K V : Type) where
  get : K → Option V → Bool → Except CacheExc (Container K V)
  set : K → V → Option Rat → List String → Bool → Except CacheExc Bool
  delete : K → Bool → Except CacheExc Bool
  add : K → V → Option Rat → List String → Bool → Except CacheExc Bool
  touch : K → Option Rat → Bool → Except CacheExc Bool
  incr : K → Int → Option Int → Bool → Except CacheExc (Option Int)
  decr : K → Int → Option Int → Bool → Except CacheExc (Option Int)
  pop : K → Option V → Bool → Except CacheExc (Container K V)
  getitem : K → Except CacheExc (Container K V)
  setitem : K → V → Except CacheExc Unit
  contains : K → Except CacheExc Bool
  delitem : K → Except CacheExc Unit

/-- The fan-out router state used by key-addressed dispatch: the codec hash
function `disk.hash` and the tuple of shards (`nshards` is `len(self._shards)`
and `shardAt i` is `self._shards[i]` for `i < nshards`). -/
structure FanoutCache (K V : Type) where
  hash : K → Nat
  nshards : Nat
  shardAt : Nat → ShardOps K V

/-- Embeds `get_shard` from `fanout/utils.py`:
`index = disk.hash(key) % len(shards); return shards[index]`. -/
def get_shard {K V : Type} (hash : K → Nat) (key : K) (nshards : Nat)
    (shardAt : Nat → ShardOps K V) : ShardOps K V :=
  shardAt (hash key % nshards)

/-- Embeds `FanoutCache.get`: route to the shard, delegate, and on a caught
storage or cache-library error return `wrap_default(default)`. -/
def FanoutCache.get {K V : Type} (c : FanoutCache K V) (key : K)
    (default : Option V) (retry : Bool) : Except CacheExc (Container K V) :=
  match (get_shard c.hash key c.nshards c.shardAt).get key default retry with
  | .ok r => .ok r
  | .error e => if e.caughtByFanout then .ok (wrap_default default) else .error e

/-- Embeds `FanoutCache.set`: route, delegate, and on a caught error return
`False`. -/
def FanoutCache.set {K V : Type} (c : FanoutCache K V) (key : K) (value : V)
    (expire : Option Rat) (tags : List String) (retry : Bool) :
    Except CacheExc Bool :=
  match (get_shard c.hash key c.nshards c.shardAt).set key value expire tags retry with
  | .ok r => .ok r
  | .error e => if e.caughtByFanout then .ok false else .error e

/-- Embeds `FanoutCache.delete`: route, delegate, and on a caught error return
`False`. -/
def FanoutCache.delete {K V : Type} (c : FanoutCache K V) (key : K)
    (retry : Bool) : Except CacheExc Bool :=
  match (get_shard c.hash key c.nshards c.shardAt).delete key retry with
  | .ok r => .ok r
  | .error e => if e.caughtByFanout then .ok false else .error e

/-- Embeds `FanoutCache.add`: route, delegate, and on a caught error return
`False`. -/
def FanoutCache.add {K V : Type} (c : FanoutCache K V) (key : K) (value : V)
    (expire : Option Rat) (tags : List String) (retry : Bool) :
    Except CacheExc Bool :=
  match (get_shard c.hash key c.nshards c.shardAt).add key value expire tags retry with
  | .ok r => .ok r
  | .error e => if e.caughtByFanout then .ok false else .error e

/-- Embeds `FanoutCache.touch`: route, delegate, and on a caught error return
`False`. -/
def FanoutCache.touch {K V : Type} (c : FanoutCache K V) (key : K)
    (expire : Option Rat) (retry : Bool) : Except CacheExc Bool :=
  match (get_shard c.hash key c.nshards c.shardAt).touch key expire retry with
  | .ok r => .ok r
  | .error e => if e.caughtByFanout then .ok false else .error e

/-- Embeds `FanoutCache.incr`: route, delegate, and on a caught error return
`None`. -/
def FanoutCache.incr {K V : Type} (c : FanoutCache K V) (key : K) (delta : Int)
    (default : Option Int) (retry : Bool) : Except CacheExc (Option Int) :=
  match (get_shard c.hash key c.nshards c.shardAt).incr key delta default retry with
  | .ok r => .ok r
  | .error e => if e.caughtByFanout then .ok Option.none else .error e

/-- Embeds `FanoutCache.decr`: route, delegate, and on a caught error return
`None`. -/
def FanoutCache.decr {K V : Type} (c : FanoutCache K V) (key : K) (delta : Int)
    (default : Option Int) (retry : Bool) : Except CacheExc (Option Int) :=
  match (get_shard c.hash key c.nshards c.shardAt).decr key delta default retry with
  | .ok r => .ok r
  | .error e => if e.caughtByFanout then .ok Option.none else .error e

/-- Embeds `FanoutCache.pop`: route, delegate, and on a caught error return
`wrap_default(default)`. -/
def FanoutCache.pop {K V : Type} (c : FanoutCache K V) (key : K)
    (default : Option V) (retry : Bool) : Except CacheExc (Container K V) :=
  match (get_shard c.hash key c.nshards c.shardAt).pop key default retry with
  | .ok r => .ok r
  | .error e => if e.caughtByFanout then .ok (wrap_default default) else .error e

/-- Embeds `FanoutCache.__getitem__`: route and delegate; no except clause. -/
def FanoutCache.getitem {K V : Type} (c : FanoutCache K V) (key : K) :
    Except CacheExc (Container K V) :=
  (get_shard c.hash key c.nshards c.shardAt).getitem key

/-- Embeds `FanoutCache.__setitem__`: route and delegate; no except clause. -/
def FanoutCache.setitem {K V : Type} (c : FanoutCache K V) (key : K)
    (value : V) : Except CacheExc Unit :=
  (get_shard c.hash key c.nshards c.shardAt).setitem key value

/-- Embeds `FanoutCache.__contains__`: route and delegate; no except clause. -/
def FanoutCache.containsKey {K V : Type} (c : FanoutCache K V) (key : K) :
    Except CacheExc Bool :=
  (get_shard c.hash key c.nshards c.shardAt).contains key

/-- Embeds `FanoutCache.__delitem__`: route and delegate; no except clause. -/
def FanoutCache.delitem {K V : Type} (c : FanoutCache K V) (key : K) :
    Except CacheExc Unit :=
  (get_shard c.hash key c.nshards c.shardAt).delitem key

/-! Bulk aggregation (`__len__`, `volume`, `stats`). Each shard's own result
is abstracted as one list element, listed in shard-index order. -/

/-- Statistics pair, from `typed_diskcache.core.types.Stats`. -/
structure Stats where
  hits : Nat
  misses : Nat
  deriving DecidableEq, Repr

/-- Embeds `FanoutCache.__len__`: `sum(len(shard) for shard in self._shards)`,
a left fold over the per-shard lengths in shard-index order. -/
def fanoutLen (lens : List Nat) : Nat :=
  lens.foldl (fun total n => total + n) 0

/-- Embeds `FanoutCache.volume`:
`sum(shard.volume() for shard in self._shards)`. -/
def fanoutVolume (vols : List Int) : Int :=
  vols.foldl (fun total n => total + n) 0

/-- Embeds the accumulation loop of `FanoutCache.stats`:
`hits, misses = 0, 0; for shard in self._shards: ...` threading the pair
through the shards front to back. -/
def fanoutStatsLoop : List Stats → Nat × Nat → Nat × Nat
  | [], acc => acc
  | s :: rest, acc => fanoutStatsLoop rest (acc.1 + s.hits, acc.2 + s.misses)

/-- Embeds `FanoutCache.stats`: run the loop from `(0, 0)` over the shards'
`stats(enable=enable, reset=reset)` results and wrap the totals. -/
def fanoutStats (shardStats : List Stats) : Stats :=
  let acc := fanoutStatsLoop shardStats (0, 0)
  { hits := acc.1, misses := acc.2 }

/-! The counting loops of `fanout/utils.py` used by `clear`, `evict`,
`expire` and `cull`. The successive results of calling the wrapped shard
operation are modelled as a finite list of attempt outcomes. -/

/-- Embeds `loop_count` from `fanout/utils.py` applied to one attempt
outcome: a Timeout-kind error is absorbed and the partial count carried in
`exc.args[0]` is used as the attempt's count; then a falsy (zero) count
returns the running total with the continue flag cleared, and a nonzero
count returns the total plus the count with the flag set. Any other
exception propagates. -/
def loop_count (total : Int) (attempt : Except CacheExc Int) :
    Except CacheExc (Int × Bool) :=
  match attempt with
  | .ok count => if count = 0 then .ok (total, false) else .ok (total + count, true)
  | .error (.diskcacheTimeoutError count) =>
      if count = 0 then .ok (total, false) else .ok (total + count, true)
  | .error e => .error e

/-- Embeds `loop_total` from `fanout/utils.py`: iterate `loop_count` while
its flag stays set, consuming one modelled attempt outcome per iteration.
`Option.none` means the modelled outcome list ran out while the loop would
have called the operation again. -/
def loop_total (total : Int) :
    List (Except CacheExc Int) → Option (Except CacheExc Int)
  | [] => Option.none
  | attempt :: rest =>
    match loop_count total attempt with
    | .error e => Option.some (.error e)
    | .ok (t, false) => Option.some (.ok t)
    | .ok (t, true) => loop_total t rest

/-- Embeds the shard loop shared by `FanoutCache.clear`, `evict`, `expire`
and `cull`: `total = 0; for shard in self._shards: total = loop_total(...)`,
each shard contributing its own list of attempt outcomes. An uncaught
exception from `loop_total` propagates out of the whole call. -/
def fanoutLoopTotals (total : Int) :
    List (List (Except CacheExc Int)) → Option (Except CacheExc Int)
  | [] => Option.some (.ok total)
  | shard :: rest =>
    match loop_total total shard with
    | Option.none => Option.none
    | Option.some (.error e) => Option.some (.error e)
    | Option.some (.ok t) => fanoutLoopTotals t rest

/-- The count an attempt effectively reports to `loop_count`: its returned
count, or for a Timeout-kind error the partial count carried as the error's
first argument; other exceptions report no count. -/
def effCount : Except CacheExc Int → Option Int
  | .ok count => Option.some count
  | .error (.diskcacheTimeoutError count) => Option.some count
  | .error _ => Option.none

/-- A terminating attempt list for one shard: every attempt reports a count,
attempts before the last report nonzero counts, and the last reports zero. -/
def stopsAtZero : List (Except CacheExc Int) → Bool
  | [] => false
  | [attempt] => effCount attempt == Option.some 0
  | attempt :: rest =>
    (match effCount attempt with
     | Option.some count => count != 0
     | Option.none => false) && stopsAtZero rest

/-- Sum of the counts reported by a shard's attempts. -/
def reportedSum : List (Except CacheExc Int) → Int
  | [] => 0
  | attempt :: rest => (effCount attempt).getD 0 + reportedSum rest

/-- Embeds the `now = now or time.time()` resolution in `FanoutCache.expire`
and `FanoutCache.aexpire`: both a missing `now` and the falsy float `0` are
replaced by the current wall-clock time `time.time()`. -/
def resolveNow (now : Option Rat) (wall : Rat) : Rat :=
  match now with
  | Option.none => wall
  | Option.some t => if t = 0 then wall else t

/-- Embeds `FanoutCache.expire`: resolve `now`, then run the shard loop; the
attempts of each shard depend on the resolved cutoff passed to
`shard.expire`. -/
def fanoutExpire (attempts : Rat → List (List (Except CacheExc Int)))
    (now : Option Rat) (wall : Rat) : Option (Except CacheExc Int) :=
  fanoutLoopTotals 0 (attempts (resolveNow now wall))

/-- Embeds `FanoutCache.aexpire`, whose body performs the same resolution
and shard loop as `FanoutCache.expire` with awaited shard calls. -/
def fanoutAexpire (attempts : Rat → List (List (Except CacheExc Int)))
    (now : Option Rat) (wall : Rat) : Option (Except CacheExc Int) :=
  fanoutLoopTotals 0 (attempts (resolveNow now wall))

/-! Construction state (`FanoutCache.__init__`, `update_shard_state`) and the
connection manager (`database/connection.py`). -/

/-- Cache settings, from `typed_diskcache.model.Settings` (the fields the
embedded code reads or writes). -/
structure Settings where
  statistics : Bool
  eviction_policy : EvictionPolicy
  size_limit : Int
  cull_limit : Int
  deriving DecidableEq, Repr

/-- The disk codec state the fan-out constructor copies into each shard: its
directory plus the rest of its configuration, abstracted as `params`, which
`copy(disk)` preserves. -/
structure DiskState where
  directory : List String
  params : Nat
  deriving DecidableEq, Repr

/-- The persistent identity of `typed_diskcache.database.connection.Connection`:
the database path, the timeout, the two optional scope functions (modelled as
functions from a context id to a scope id) and the optionally bound settings.
The `cached*` fields model the `cached_property` slots of `self.__dict__`
holding the live engine and registry objects, as opaque ids. -/
structure Connection where
  database : List String
  timeout : Rat
  sync_scopefunc : Option (Nat → Nat)
  async_scopefunc : Option (Nat → Nat)
  settings : Option Settings
  cachedSyncEngine : Option Nat := Option.none
  cachedAsyncEngine : Option Nat := Option.none
  cachedSyncRegistry : Option Nat := Option.none
  cachedAsyncRegistry : Option Nat := Option.none

/-- The serialized descriptor produced by `Connection.__getstate__`: exactly
the database path, the timeout, the two pickled scope functions and the
JSON-serialized settings. Pickling (`cloudpickle.dumps`/`loads`) and the
pydantic JSON round trip are modelled as identity encodings. -/
structure ConnectionState where
  database : List String
  timeout : Rat
  sync_scopefunc : Option (Nat → Nat)
  async_scopefunc : Option (Nat → Nat)
  settings : Option Settings

/-- Embeds `Connection.__getstate__`: the descriptor carries the stringified
database path, the timeout, the pickled scope functions and the serialized
settings, and nothing else. -/
def Connection.getstate (c : Connection) : ConnectionState :=
  { database := c.database
    timeout := c.timeout
    sync_scopefunc := c.sync_scopefunc
    async_scopefunc := c.async_scopefunc
    settings := c.settings }

/-- Embeds `Connection.__setstate__` on a freshly unpickled object: the five
descriptor fields are restored (the timeout through its property setter) and
no engine, registry or physical connection exists on the new object. -/
def Connection.setstate (s : ConnectionState) : Connection :=
  { database := s.database
    timeout := s.timeout
    sync_scopefunc := s.sync_scopefunc
    async_scopefunc := s.async_scopefunc
    settings := s.settings }

/-- One shard's state after `update_shard_state` in `fanout/utils.py`. -/
structure ShardState where
  directory : List String
  disk : DiskState
  conn : Connection
  settings : Settings
  page_size : Nat

/-- Embeds the `f"{index:03d}"` shard subdirectory name: the decimal index
left-padded with zeros to at least three digits. -/
def shardDirName (index : Nat) : String :=
  let s := toString index
  String.mk (List.replicate (3 - s.length) '0') ++ s

/-- Embeds `update_shard_state` from `fanout/utils.py`: the shard's directory
becomes the numbered subdirectory of the parent directory, its disk is a copy
of the router's disk rebased onto that subdirectory, and the router's
connection, settings and page size objects are installed as-is. -/
def update_shard_state (index : Nat) (directory : List String)
    (disk : DiskState) (conn : Connection) (settings : Settings)
    (page_size : Nat) : ShardState :=
  { directory := directory ++ [shardDirName index]
    disk := { disk with directory := directory ++ [shardDirName index] }
    conn := conn
    settings := settings
    page_size := page_size }

/-- Embeds `update_shards_state` from `fanout/utils.py`: apply
`update_shard_state` to every shard index in ascending order. -/
def update_shards_state (shard_size : Nat) (directory : List String)
    (disk : DiskState) (conn : Connection) (settings : Settings)
    (page_size : Nat) : List ShardState :=
  (List.range shard_size).map fun index =>
    update_shard_state index directory disk conn settings page_size

/-- The router state produced by `FanoutCache.__init__` that the construction
claims inspect. -/
structure FanoutState where
  directory : List String
  disk : DiskState
  conn : Connection
  settings : Settings
  page_size : Nat
  shard_size : Nat
  shards : List ShardState

/-- Embeds the tail of `FanoutCache.__init__` in `fanout/main.py`, after
`init_args` (not among the provided sources) has produced the disk, the
connection, the settings and the page size: `settings.size_limit //=
shard_size` (Python floor division), then the shard objects are allocated and
`update_shards_state` installs their state. The mutated `settings` object is
shared by the router and every shard, as is the single `conn` object. -/
def fanoutInit (directory : List String) (disk : DiskState) (conn : Connection)
    (settings : Settings) (page_size : Nat) (shard_size : Nat) : FanoutState :=
  let settings :=
    { settings with size_limit := settings.size_limit.fdiv (shard_size : Int) }
  { directory := directory
    disk := disk
    conn := conn
    settings := settings
    page_size := page_size
    shard_size := shard_size
    shards := update_shards_state shard_size directory disk conn settings page_size }

/-! The eviction helper (`database/connection.py`, class `Eviction`). The
sqlalchemy statement builders are embedded as the shapes of the statements
they construct. -/

/-- Columns of the `Cache` row table referenced by the eviction statements. -/
inductive CacheColumn where
  | id
  | store_time
  | access_time
  | access_count
  deriving DecidableEq, Repr

/-- Shape of the statements built by the `Eviction.get` property:
`update(Cache).values(col=bindparam(p)).where(Cache.id == bindparam("id"))`. -/
structure SqlUpdate where
  setColumn : CacheColumn
  setParam : String
  whereColumn : CacheColumn
  whereParam : String
  deriving DecidableEq, Repr

/-- Shape of the queries built by the `Eviction.cull` property:
`select(Cache).order_by(col).limit(bindparam("limit"))`; `order_by` on a bare
column sorts ascending. -/
structure SqlSelect where
  orderBy : CacheColumn
  ascending : Bool
  limitParam : String
  deriving DecidableEq, Repr

/-- The `Eviction` helper state: the policy captured from the connection's
bound settings by `Eviction.__init__`. -/
structure Eviction where
  policy : EvictionPolicy
  deriving DecidableEq, Repr

/-- Embeds `Eviction.__init__` as reached through the `Connection.eviction`
property: unbound settings raise `TypedDiskcacheValueError("settings is not
set")`; otherwise the helper captures `settings.eviction_policy`. -/
def connectionEviction (settings : Option Settings) : Except CacheExc Eviction :=
  match settings with
  | Option.none => .error .diskcacheValueError
  | Option.some s => .ok { policy := s.eviction_policy }

/-- Embeds the `Eviction.get` property: an access-bookkeeping update
statement for the two policies that track access, otherwise `None`. -/
def Eviction.get (ev : Eviction) : Option SqlUpdate :=
  match ev.policy with
  | .leastRecentlyUsed =>
      Option.some { setColumn := .access_time, setParam := "access_time"
                    whereColumn := .id, whereParam := "id" }
  | .leastFrequentlyUsed =>
      Option.some { setColumn := .access_count, setParam := "access_count"
                    whereColumn := .id, whereParam := "id" }
  | _ => Option.none

/-- Embeds the `Eviction.cull` property: a policy-ordered ascending select
with a bound limit for the three ordering policies, otherwise `None`. -/
def Eviction.cull (ev : Eviction) : Option SqlSelect :=
  match ev.policy with
  | .leastRecentlyStored =>
      Option.some { orderBy := .store_time, ascending := true, limitParam := "limit" }
  | .leastRecentlyUsed =>
      Option.some { orderBy := .access_time, ascending := true, limitParam := "limit" }
  | .leastFrequentlyUsed =>
      Option.some { orderBy := .access_count, ascending := true, limitParam := "limit" }
  | .none => Option.none

/-! Queue-style operations of the fan-out router. Each returns its raised
exception together with the untouched router state. -/

/-- Queue sides, from `typed_diskcache.core.types.QueueSide`. -/
inductive QueueSide where
  | front
  | back
  deriving DecidableEq, Repr

/-- Embeds `FanoutCache.push`: `raise NotImplementedError` before touching any
shard, so the router state is returned unchanged. -/
def FanoutCache.push {K V : Type} (c : FanoutCache K V) (value : V)
    (pfx : Option String) (side : QueueSide) (expire : Option Rat)
    (tags : List String) (retry : Bool) :
    Except CacheExc Unit × FanoutCache K V :=
  (.error .notImplementedError, c)

/-- Embeds `FanoutCache.apush`: `raise NotImplementedError`. -/
def FanoutCache.apush {K V : Type} (c : FanoutCache K V) (value : V)
    (pfx : Option String) (side : QueueSide) (expire : Option Rat)
    (tags : List String) (retry : Bool) :
    Except CacheExc Unit × FanoutCache K V :=
  (.error .notImplementedError, c)

/-- Embeds `FanoutCache.pull`: `raise NotImplementedError`. -/
def FanoutCache.pull {K V : Type} (c : FanoutCache K V) (pfx : Option String)
    (default : Option (K × V)) (side : QueueSide) (retry : Bool) :
    Except CacheExc Unit × FanoutCache K V :=
  (.error .notImplementedError, c)

/-- Embeds `FanoutCache.apull`: `raise NotImplementedError`. -/
def FanoutCache.apull {K V : Type} (c : FanoutCache K V) (pfx : Option String)
    (default : Option (K × V)) (side : QueueSide) (retry : Bool) :
    Except CacheExc Unit × FanoutCache K V :=
  (.error .notImplementedError, c)

/-- Embeds `FanoutCache.peek`: `raise NotImplementedError`. -/
def FanoutCache.peek {K V : Type} (c : FanoutCache K V) (pfx : Option String)
    (default : Option (K × V)) (side : QueueSide) (retry : Bool) :
    Except CacheExc Unit × FanoutCache K V :=
  (.error .notImplementedError, c)

/-- Embeds `FanoutCache.apeek`: `raise NotImplementedError`. -/
def FanoutCache.apeek {K V : Type} (c : FanoutCache K V) (pfx : Option String)
    (default : Option (K × V)) (side : QueueSide) (retry : Bool) :
    Except CacheExc Unit × FanoutCache K V :=
  (.error .notImplementedError, c)

/-- Embeds `FanoutCache.peekitem`: `raise NotImplementedError`. -/
def FanoutCache.peekitem {K V : Type} (c : FanoutCache K V) (last : Bool)
    (retry : Bool) : Except CacheExc Unit × FanoutCache K V :=
  (.error .notImplementedError, c)

/-- Embeds `FanoutCache.apeekitem`: `raise NotImplementedError`. -/
def FanoutCache.apeekitem {K V : Type} (c : FanoutCache K V) (last : Bool)
    (retry : Bool) : Except CacheExc Unit × FanoutCache K V :=
  (.error .notImplementedError, c)

/-! Concrete instances used by the witnesses. -/

/-- A concrete shard whose every operation succeeds with a fixed result. -/
def okShard : ShardOps Nat Nat :=
  { get := fun k d _ => .ok { key := Option.some k, value := d, default := true }
    set := fun _ _ _ _ _ => .ok true
    delete := fun _ _ => .ok true
    add := fun _ _ _ _ _ => .ok true
    touch := fun _ _ _ => .ok true
    incr := fun _ delta d _ => .ok (Option.some (d.getD 0 + delta))
    decr := fun _ delta d _ => .ok (Option.some (d.getD 0 - delta))
    pop := fun k d _ => .ok { key := Option.some k, value := d, default := true }
    getitem := fun k =>
      .ok { key := Option.some k, value := Option.some k, default := false }
    setitem := fun _ _ => .ok ()
    contains := fun _ => .ok true
    delitem := fun _ => .ok () }

/-- A concrete shard whose every operation raises `OperationalError`. -/
def errShard : ShardOps Nat Nat :=
  { get := fun _ _ _ => .error .operationalError
    set := fun _ _ _ _ _ => .error .operationalError
    delete := fun _ _ => .error .operationalError
    add := fun _ _ _ _ _ => .error .operationalError
    touch := fun _ _ _ => .error .operationalError
    incr := fun _ _ _ _ => .error .operationalError
    decr := fun _ _ _ _ => .error .operationalError
    pop := fun _ _ _ => .error .operationalError
    getitem := fun _ => .error .operationalError
    setitem := fun _ _ => .error .operationalError
    contains := fun _ => .error .operationalError
    delitem := fun _ => .error .operationalError }

/-- A concrete two-shard router: shard 1 succeeds, shard 0 errors. -/
def demoCacheA : FanoutCache Nat Nat :=
  { hash := fun k => k
    nshards := 2
    shardAt := fun i => if i = 1 then okShard else errShard }

/-- A second router that agrees with `demoCacheA` on the hash of key 5 and on
the shard key 5 routes to, and disagrees elsewhere. -/
def demoCacheB : FanoutCache Nat Nat :=
  { hash := fun k => if k = 5 then 5 else 9
    nshards := 2
    shardAt := fun _ => okShard }

/-- A concrete one-shard router whose shard always raises. -/
def errCache : FanoutCache Nat Nat :=
  { hash := fun k => k
    nshards := 1
    shardAt := fun _ => errShard }

/-- A concrete connection used by the construction witnesses. -/
def demoConn : Connection :=
  { database := ["parent", "cache.db"]
    timeout := 60
    sync_scopefunc := Option.none
    async_scopefunc := Option.none
    settings := Option.none }

/-- A concrete disk codec state used by the construction witnesses. -/
def demoDisk : DiskState :=
  { directory := ["parent"], params := 7 }

/-- Concrete settings with the library defaults used by the construction
witnesses. -/
def demoSettings : Settings :=
  { statistics := false
    eviction_policy := .leastRecentlyStored
    size_limit := 2 ^ 30
    cull_limit := 10 }

/-- Concrete per-shard attempt outcomes used by the counting-loop witness:
shard one returns 2, times out with partial count 3, then returns 0; shard
two returns 0 at once. -/
def demoRuns : List (List (Except CacheExc Int)) :=
  [[.ok 2, .error (.diskcacheTimeoutError 3), .ok 0], [.ok 0]]

/-! Helper lemmas. -/

/-- A left fold adding naturals starting from `a` yields `a` plus the sum. -/
theorem foldl_add_nat (l : List Nat) (a : Nat) :
    l.foldl (fun total n => total + n) a = a + l.sum := by
  induction l generalizing a with
  | nil => simp
  | cons x xs ih => simp [ih, List.sum_cons]; omega

/-- A left fold adding integers starting from `a` yields `a` plus the sum. -/
theorem foldl_add_int (l : List Int) (a : Int) :
    l.foldl (fun total n => total + n) a = a + l.sum := by
  induction l generalizing a with
  | nil => simp
  | cons x xs ih => simp [ih, List.sum_cons]; omega

/-- The stats loop adds the per-shard hits and misses onto its accumulator. -/
theorem fanoutStatsLoop_eq (ss : List Stats) (h m : Nat) :
    fanoutStatsLoop ss (h, m)
      = (h + (ss.map Stats.hits).sum, m + (ss.map Stats.misses).sum) := by
  induction ss generalizing h m with
  | nil => simp [fanoutStatsLoop]
  | cons s rest ih => simp [fanoutStatsLoop, ih]; omega

/-- `loop_count` on an attempt that reports a count behaves as the zero test
plus accumulation on that count. -/
theorem loop_count_of_eff (total : Int) (attempt : Except CacheExc Int)
    (c : Int) (h : effCount attempt = Option.some c) :
    loop_count total attempt
      = if c = 0 then .ok (total, false) else .ok (total + c, true) := by
  cases attempt with
  | ok d => simp [effCount] at h; subst h; rfl
  | error e =>
    cases e with
    | operationalError => simp [effCount] at h
    | diskcacheError => simp [effCount] at h
    | diskcacheKeyError => simp [effCount] at h
    | diskcacheValueError => simp [effCount] at h
    | diskcacheTimeoutError d => simp [effCount] at h; subst h; rfl
    | notImplementedError => simp [effCount] at h
    | otherError => simp [effCount] at h

/-- `loop_count` propagates only the attempt's own exception, and never a
Timeout-kind one. -/
theorem loop_count_error (total : Int) (attempt : Except CacheExc Int)
    (e : CacheExc) (h : loop_count total attempt = .error e) :
    attempt = .error e ∧ e.isTimeout = false := by
  cases attempt with
  | ok c =>
    by_cases hc : c = 0 <;> simp [loop_count, hc] at h
  | error exc =>
    cases exc with
    | diskcacheTimeoutError c =>
      by_cases hc : c = 0 <;> simp [loop_count, hc] at h
    | operationalError =>
      simp [loop_count] at h; subst h; exact ⟨rfl, rfl⟩
    | diskcacheError =>
      simp [loop_count] at h; subst h; exact ⟨rfl, rfl⟩
    | diskcacheKeyError =>
      simp [loop_count] at h; subst h; exact ⟨rfl, rfl⟩
    | diskcacheValueError =>
      simp [loop_count] at h; subst h; exact ⟨rfl, rfl⟩
    | notImplementedError =>
      simp [loop_count] at h; subst h; exact ⟨rfl, rfl⟩
    | otherError =>
      simp [loop_count] at h; subst h; exact ⟨rfl, rfl⟩

/-- On a terminating attempt list, `loop_total` returns its starting total
plus the sum of the reported counts. -/
theorem loop_total_stops (s : List (Except CacheExc Int)) :
    stopsAtZero s = true → ∀ total,
      loop_total total s = Option.some (.ok (total + reportedSum s)) := by
  induction s with
  | nil => intro hs; simp [stopsAtZero] at hs
  | cons a rest ih =>
    intro hs total
    cases rest with
    | nil =>
      have ha : effCount a = Option.some 0 := by simpa [stopsAtZero] using hs
      simp [loop_total, loop_count_of_eff total a 0 ha, reportedSum, ha]
    | cons b rest2 =>
      cases hma : effCount a with
      | none => simp [stopsAtZero, hma] at hs
      | some c =>
        simp only [stopsAtZero, hma, Bool.and_eq_true, bne_iff_ne, ne_eq] at hs
        obtain ⟨hc, hrest⟩ := hs
        have hlc := loop_count_of_eff total a c hma
        rw [if_neg hc] at hlc
        have hstep : loop_total total (a :: b :: rest2)
            = loop_total (total + c) (b :: rest2) := by
          simp [loop_total, hlc]
        rw [hstep, ih hrest (total + c)]
        simp [reportedSum, hma, add_assoc]

/-- Running out of a shard's attempt list aside, a well-formed shard run ends
in the sum of all its shards' counts. -/
theorem fanoutLoopTotals_stops (shards : List (List (Except CacheExc Int))) :
    shards.all stopsAtZero = true → ∀ total,
      fanoutLoopTotals total shards
        = Option.some (.ok (total + (shards.map reportedSum).sum)) := by
  induction shards with
  | nil => intro _ total; simp [fanoutLoopTotals]
  | cons s rest ih =>
    intro h total
    simp only [List.all_cons, Bool.and_eq_true] at h
    obtain ⟨hs, hrest⟩ := h
    simp only [fanoutLoopTotals, loop_total_stops s hs total,
      ih hrest (total + reportedSum s), List.map_cons, List.sum_cons]
    simp [add_assoc]

/-- `loop_total` never returns a Timeout-kind exception. -/
theorem loop_total_noTimeout (s : List (Except CacheExc Int)) :
    ∀ total e, loop_total total s = Option.some (.error e) →
      e.isTimeout = false := by
  induction s with
  | nil => intro total e h; simp [loop_total] at h
  | cons a rest ih =>
    intro total e h
    simp only [loop_total] at h
    cases hlc : loop_count total a with
    | error e2 =>
      rw [hlc] at h
      simp only [Option.some.injEq, Except.error.injEq] at h
      subst h
      exact (loop_count_error total a e2 hlc).2
    | ok p =>
      obtain ⟨t, flag⟩ := p
      rw [hlc] at h
      cases flag with
      | false => simp at h
      | true => exact ih t e (by simpa using h)

/-- The whole shard loop never returns a Timeout-kind exception. -/
theorem fanoutLoopTotals_noTimeout (shards : List (List (Except CacheExc Int))) :
    ∀ total e, fanoutLoopTotals total shards = Option.some (.error e) →
      e.isTimeout = false := by
  induction shards with
  | nil => intro total e h; simp [fanoutLoopTotals] at h
  | cons s rest ih =>
    intro total e h
    simp only [fanoutLoopTotals] at h
    cases hlt : loop_total total s with
    | none => rw [hlt] at h; simp at h
    | some r =>
      cases r with
      | error e2 =>
        rw [hlt] at h
        simp only [Option.some.injEq, Except.error.injEq] at h
        subst h
        exact loop_total_noTimeout s total e2 hlt
      | ok t =>
        rw [hlt] at h
        exact ih t e h

/-! The claims. -/

/-- C1: every key-addressed `FanoutCache` operation (`get`, `set`, `delete`,
`add`, `touch`, `incr`, `decr`, `pop`, `__getitem__`, `__setitem__`,
`__contains__`, `__delitem__`) consults exactly the shard at index
`disk.hash(key) % N`: `get_shard` picks that shard, and any two routers that
agree on the key's hash, the shard count and the shard stored at that index
produce identical results for every operation on that key, so the same key is
always routed to the same shard across calls. -/
theorem claim_C1 {K V : Type} (c c' : FanoutCache K V) (key : K)
    (hN : 0 < c.nshards)
    (hhash : c.hash key = c'.hash key)
    (hlen : c.nshards = c'.nshards)
    (hshard : c.shardAt (c.hash key % c.nshards)
      = c'.shardAt (c.hash key % c.nshards)) :
    (get_shard c.hash key c.nshards c.shardAt
      = c.shardAt (c.hash key % c.nshards)) ∧
    (∀ d r, c.get key d r = c'.get key d r) ∧
    (∀ v ex t r, c.set key v ex t r = c'.set key v ex t r) ∧
    (∀ r, c.delete key r = c'.delete key r) ∧
    (∀ v ex t r, c.add key v ex t r = c'.add key v ex t r) ∧
    (∀ ex r, c.touch key ex r = c'.touch key ex r) ∧
    (∀ dl df r, c.incr key dl df r = c'.incr key dl df r) ∧
    (∀ dl df r, c.decr key dl df r = c'.decr key dl df r) ∧
    (∀ d r, c.pop key d r = c'.pop key d r) ∧
    (c.getitem key = c'.getitem key) ∧
    (∀ v, c.setitem key v = c'.setitem key v) ∧
    (c.containsKey key = c'.containsKey key) ∧
    (c.delitem key = c'.delitem key) := by
  refine ⟨rfl, ?_, ?_, ?_, ?_, ?_, ?_, ?_, ?_, ?_, ?_, ?_, ?_⟩
  all_goals intros
  all_goals simp only [FanoutCache.get, FanoutCache.set, FanoutCache.delete,
    FanoutCache.add, FanoutCache.touch, FanoutCache.incr, FanoutCache.decr,
    FanoutCache.pop, FanoutCache.getitem, FanoutCache.setitem,
    FanoutCache.containsKey, FanoutCache.delitem, get_shard,
    ← hhash, ← hlen, ← hshard]

/-- C1 witness: two concrete routers that agree on key 5's hash and on the
shard it routes to give the same answers for key 5. -/
theorem claim_C1_witness :
    demoCacheA.get 5 (Option.some 7) true = demoCacheB.get 5 (Option.some 7) true ∧
    demoCacheA.containsKey 5 = demoCacheB.containsKey 5 := by
  obtain ⟨h0, hget, hset, hdel, hadd, htouch, hincr, hdecr, hpop, hgi, hsi,
    hcont, hdi⟩ := claim_C1 demoCacheA demoCacheB 5 (by decide) rfl rfl rfl
  exact ⟨hget _ _, hcont⟩

/-- C2: when the routed shard raises `OperationalError` or any
cache-library (`TypedDiskcacheError`) exception, the router absorbs it and
returns the operation's ordinary no-op result: `wrap_default` for `get` and
`pop`, `False` for `set`, `delete`, `add` and `touch`, and `None` for `incr`
and `decr`. -/
theorem claim_C2 {K V : Type} (c : FanoutCache K V) (key : K) (e : CacheExc)
    (hN : 0 < c.nshards) (he : e.caughtByFanout = true) :
    (∀ d r, (get_shard c.hash key c.nshards c.shardAt).get key d r = .error e →
      c.get key d r = .ok (wrap_default d)) ∧
    (∀ v ex t r,
      (get_shard c.hash key c.nshards c.shardAt).set key v ex t r = .error e →
      c.set key v ex t r = .ok false) ∧
    (∀ r, (get_shard c.hash key c.nshards c.shardAt).delete key r = .error e →
      c.delete key r = .ok false) ∧
    (∀ v ex t r,
      (get_shard c.hash key c.nshards c.shardAt).add key v ex t r = .error e →
      c.add key v ex t r = .ok false) ∧
    (∀ ex r,
      (get_shard c.hash key c.nshards c.shardAt).touch key ex r = .error e →
      c.touch key ex r = .ok false) ∧
    (∀ dl df r,
      (get_shard c.hash key c.nshards c.shardAt).incr key dl df r = .error e →
      c.incr key dl df r = .ok Option.none) ∧
    (∀ dl df r,
      (get_shard c.hash key c.nshards c.shardAt).decr key dl df r = .error e →
      c.decr key dl df r = .ok Option.none) ∧
    (∀ d r, (get_shard c.hash key c.nshards c.shardAt).pop key d r = .error e →
      c.pop key d r = .ok (wrap_default d)) := by
  refine ⟨?_, ?_, ?_, ?_, ?_, ?_, ?_, ?_⟩
  · intro d r h
    simp only [FanoutCache.get]; rw [h]; simp [he]
  · intro v ex t r h
    simp only [FanoutCache.set]; rw [h]; simp [he]
  · intro r h
    simp only [FanoutCache.delete]; rw [h]; simp [he]
  · intro v ex t r h
    simp only [FanoutCache.add]; rw [h]; simp [he]
  · intro ex r h
    simp only [FanoutCache.touch]; rw [h]; simp [he]
  · intro dl df r h
    simp only [FanoutCache.incr]; rw [h]; simp [he]
  · intro dl df r h
    simp only [FanoutCache.decr]; rw [h]; simp [he]
  · intro d r h
    simp only [FanoutCache.pop]; rw [h]; simp [he]

/-- C2 witness: on a router whose only shard always raises
`OperationalError`, the eight operations return their no-op results. -/
theorem claim_C2_witness :
    errCache.get 0 (Option.some 3) true = .ok (wrap_default (Option.some 3)) ∧
    errCache.set 0 5 Option.none [] false = .ok false ∧
    errCache.delete 0 false = .ok false ∧
    errCache.add 0 5 Option.none [] false = .ok false ∧
    errCache.touch 0 Option.none false = .ok false ∧
    errCache.incr 0 1 (Option.some 0) false = .ok Option.none ∧
    errCache.decr 0 1 (Option.some 0) false = .ok Option.none ∧
    errCache.pop 0 (Option.some 3) true = .ok (wrap_default (Option.some 3)) := by
  obtain ⟨hget, hset, hdel, hadd, htouch, hincr, hdecr, hpop⟩ :=
    claim_C2 errCache 0 .operationalError (by decide) rfl
  exact ⟨hget _ _ rfl, hset _ _ _ _ rfl, hdel _ rfl, hadd _ _ _ _ rfl,
    htouch _ _ rfl, hincr _ _ _ rfl, hdecr _ _ _ rfl, hpop _ _ rfl⟩

/-- C3: for every bound `Settings`, the `Eviction` helper derived through the
connection captures the settings' policy, and the four-policy table holds:
`none` has no update statement and no cull query; least-recently-stored has
no update statement and culls by `store_time` ascending; least-recently-used
updates `access_time` and culls by `access_time` ascending;
least-frequently-used updates `access_count` and culls by `access_count`
ascending. -/
theorem claim_C3 (s : Settings) :
    connectionEviction (Option.some s) = .ok { policy := s.eviction_policy } ∧
    Eviction.get { policy := .none } = Option.none ∧
    Eviction.cull { policy := .none } = Option.none ∧
    Eviction.get { policy := .leastRecentlyStored } = Option.none ∧
    Eviction.cull { policy := .leastRecentlyStored }
      = Option.some { orderBy := .store_time, ascending := true, limitParam := "limit" } ∧
    Eviction.get { policy := .leastRecentlyUsed }
      = Option.some { setColumn := .access_time, setParam := "access_time",
                      whereColumn := .id, whereParam := "id" } ∧
    Eviction.cull { policy := .leastRecentlyUsed }
      = Option.some { orderBy := .access_time, ascending := true, limitParam := "limit" } ∧
    Eviction.get { policy := .leastFrequentlyUsed }
      = Option.some { setColumn := .access_count, setParam := "access_count",
                      whereColumn := .id, whereParam := "id" } ∧
    Eviction.cull { policy := .leastFrequentlyUsed }
      = Option.some { orderBy := .access_count, ascending := true, limitParam := "limit" } :=
  ⟨rfl, rfl, rfl, rfl, rfl, rfl, rfl, rfl, rfl⟩

/-- The constructor installs, for every shard index, the numbered
subdirectory, the rebased disk copy, the router's single connection and the
divided settings. -/
theorem fanoutInit_shards_eq (directory : List String) (disk : DiskState)
    (conn : Connection) (settings : Settings) (page_size shard_size : Nat) :
    (fanoutInit directory disk conn settings page_size shard_size).shards
      = (List.range shard_size).map (fun index =>
          { directory := directory ++ [shardDirName index]
            disk := { disk with directory := directory ++ [shardDirName index] }
            conn := conn
            settings :=
              { settings with size_limit := settings.size_limit.fdiv shard_size }
            page_size := page_size }) :=
  rfl

/-- C4: the claim says each shard owns its numbered subdirectory as a
self-contained single-engine directory with its own storage file and lock.
The embedded constructor, evaluated on a concrete two-shard router, does give
the shards the subdirectories `000` and `001`, but hands both shards the one
connection object of the router, bound to the same storage file under the
parent directory — there is no per-shard storage file or lock, contradicting
the claim (and the per-key length and stats arithmetic the repository's own
test suite asserts for the fan-out cache). -/
theorem claim_C4 :
    ((fanoutInit ["parent"] demoDisk demoConn demoSettings 4096 2).shards.map
        ShardState.directory) = [["parent", "000"], ["parent", "001"]] ∧
    ((fanoutInit ["parent"] demoDisk demoConn demoSettings 4096 2).shards.map
        ShardState.conn) = [demoConn, demoConn] ∧
    ((fanoutInit ["parent"] demoDisk demoConn demoSettings 4096 2).shards.map
        (fun s => s.conn.database))
      = [["parent", "cache.db"], ["parent", "cache.db"]] :=
  ⟨rfl, rfl, rfl⟩

/-- C5: the bulk reductions process the shards front to back (ascending shard
index) and aggregate by summation: `len(router)` is the sum of the per-shard
lengths, `volume()` the sum of the per-shard volumes, and `stats` the
componentwise sums of the per-shard `(hits, misses)` pairs, the accumulator
absorbing each shard's pair in list order. -/
theorem claim_C5 :
    (∀ lens : List Nat, fanoutLen lens = lens.sum) ∧
    (∀ vols : List Int, fanoutVolume vols = vols.sum) ∧
    (∀ ss : List Stats,
      fanoutStats ss
        = { hits := (ss.map Stats.hits).sum, misses := (ss.map Stats.misses).sum }) ∧
    (∀ s rest acc, fanoutStatsLoop (s :: rest) acc
        = fanoutStatsLoop rest (acc.1 + s.hits, acc.2 + s.misses)) := by
  refine ⟨?_, ?_, ?_, ?_⟩
  · intro lens; simp [fanoutLen, foldl_add_nat]
  · intro vols; simp [fanoutVolume, foldl_add_int]
  · intro ss
    simp only [fanoutStats]
    rw [fanoutStatsLoop_eq]
    simp
  · intro s rest acc; rfl

/-- C6: construction divides the configured size limit evenly across the `N`
shards with floor division: the settings object shared by the router and
every shard carries `size_limit = floor(original / N)`. -/
theorem claim_C6 (directory : List String) (disk : DiskState)
    (conn : Connection) (settings : Settings) (page_size shard_size : Nat)
    (hpos : 0 < shard_size) :
    (fanoutInit directory disk conn settings page_size shard_size).settings.size_limit
      = settings.size_limit.fdiv shard_size ∧
    (∀ s ∈ (fanoutInit directory disk conn settings page_size shard_size).shards,
      s.settings.size_limit = settings.size_limit.fdiv shard_size) := by
  refine ⟨rfl, ?_⟩
  intro s hs
  simp only [fanoutInit, update_shards_state, List.mem_map] at hs
  obtain ⟨i, -, rfl⟩ := hs
  rfl

/-- C6 witness: with four shards and the default limit `2^30`, every shard's
bound settings carry `size_limit = 2^28`. -/
theorem claim_C6_witness :
    0 < 4 ∧
    (fanoutInit ["parent"] demoDisk demoConn demoSettings 4096 4).settings.size_limit
      = 268435456 := by
  have h := claim_C6 ["parent"] demoDisk demoConn demoSettings 4096 4 (by decide)
  exact ⟨by decide, h.1.trans (by decide)⟩

/-- C7: the counting loops behind `clear`, `evict`, `expire` and `cull`
absorb a Timeout-kind error into the partial count carried as its first
argument, advance to the next shard exactly when an attempt reports a zero
count, return the grand total over all attempts and shards, and never let a
Timeout-kind error reach the caller. -/
theorem claim_C7 :
    (∀ total count,
      loop_count total (.error (.diskcacheTimeoutError count))
        = loop_count total (.ok count)) ∧
    (∀ total attempt t flag, loop_count total attempt = .ok (t, flag) →
      (flag = false ↔ effCount attempt = Option.some 0)) ∧
    (∀ shards : List (List (Except CacheExc Int)),
      shards.all stopsAtZero = true →
      fanoutLoopTotals 0 shards
        = Option.some (.ok ((shards.map reportedSum).sum))) ∧
    (∀ total shards e,
      fanoutLoopTotals total shards = Option.some (.error e) →
      e.isTimeout = false) := by
  refine ⟨fun total count => rfl, ?_, ?_, ?_⟩
  · intro total attempt t flag h
    cases attempt with
    | ok c =>
      by_cases hc : c = 0
      · subst hc
        simp [loop_count] at h
        simp [effCount, ← h.2]
      · simp [loop_count, hc] at h
        simp [effCount, hc, ← h.2]
    | error e =>
      cases e with
      | diskcacheTimeoutError c =>
        by_cases hc : c = 0
        · subst hc
          simp [loop_count] at h
          simp [effCount, ← h.2]
        · simp [loop_count, hc] at h
          simp [effCount, hc, ← h.2]
      | operationalError => simp [loop_count] at h
      | diskcacheError => simp [loop_count] at h
      | diskcacheKeyError => simp [loop_count] at h
      | diskcacheValueError => simp [loop_count] at h
      | notImplementedError => simp [loop_count] at h
      | otherError => simp [loop_count] at h
  · intro shards h
    simpa using fanoutLoopTotals_stops shards h 0
  · intro total shards e h
    exact fanoutLoopTotals_noTimeout shards total e h

/-- C7 witness: a shard that counts 2, times out with partial count 3, then
reports 0, followed by a shard reporting 0 at once, totals 5 with no error. -/
theorem claim_C7_witness :
    demoRuns.all stopsAtZero = true ∧
    fanoutLoopTotals 0 demoRuns = Option.some (.ok 5) := by
  have hall : demoRuns.all stopsAtZero = true := rfl
  have h := claim_C7.2.2.1 demoRuns hall
  have hsum : ((demoRuns.map reportedSum).sum : Int) = 5 := rfl
  exact ⟨hall, hsum ▸ h⟩

/-- C8: unpickling the pickled connection descriptor reconstructs a
connection with equal database path, timeout, scope functions and settings,
on which no live engine, registry or physical connection exists; and the
descriptor depends only on those five persistent fields, never on the cached
live objects. -/
theorem claim_C8 (c : Connection) :
    (Connection.setstate (Connection.getstate c)).database = c.database ∧
    (Connection.setstate (Connection.getstate c)).timeout = c.timeout ∧
    (Connection.setstate (Connection.getstate c)).sync_scopefunc
      = c.sync_scopefunc ∧
    (Connection.setstate (Connection.getstate c)).async_scopefunc
      = c.async_scopefunc ∧
    (Connection.setstate (Connection.getstate c)).settings = c.settings ∧
    (Connection.setstate (Connection.getstate c)).cachedSyncEngine
      = Option.none ∧
    (Connection.setstate (Connection.getstate c)).cachedAsyncEngine
      = Option.none ∧
    (Connection.setstate (Connection.getstate c)).cachedSyncRegistry
      = Option.none ∧
    (Connection.setstate (Connection.getstate c)).cachedAsyncRegistry
      = Option.none ∧
    (∀ e1 e2 r1 r2,
      Connection.getstate
          { c with cachedSyncEngine := e1, cachedAsyncEngine := e2,
                   cachedSyncRegistry := r1, cachedAsyncRegistry := r2 }
        = Connection.getstate c) :=
  ⟨rfl, rfl, rfl, rfl, rfl, rfl, rfl, rfl, rfl, fun _ _ _ _ => rfl⟩

/-- C9: every queue-style router operation (`push`, `pull`, `peek`,
`peekitem` and their async forms) raises `NotImplementedError` for all
arguments and leaves the router state unchanged. -/
theorem claim_C9 {K V : Type} (c : FanoutCache K V) :
    (∀ value pfx side expire tags retry,
      c.push value pfx side expire tags retry
        = (.error .notImplementedError, c)) ∧
    (∀ value pfx side expire tags retry,
      c.apush value pfx side expire tags retry
        = (.error .notImplementedError, c)) ∧
    (∀ pfx default side retry,
      c.pull pfx default side retry = (.error .notImplementedError, c)) ∧
    (∀ pfx default side retry,
      c.apull pfx default side retry = (.error .notImplementedError, c)) ∧
    (∀ pfx default side retry,
      c.peek pfx default side retry = (.error .notImplementedError, c)) ∧
    (∀ pfx default side retry,
      c.apeek pfx default side retry = (.error .notImplementedError, c)) ∧
    (∀ last retry,
      c.peekitem last retry = (.error .notImplementedError, c)) ∧
    (∀ last retry,
      c.apeekitem last retry = (.error .notImplementedError, c)) :=
  ⟨fun _ _ _ _ _ _ => rfl, fun _ _ _ _ _ _ => rfl, fun _ _ _ _ => rfl,
    fun _ _ _ _ => rfl, fun _ _ _ _ => rfl, fun _ _ _ _ => rfl,
    fun _ _ => rfl, fun _ _ => rfl⟩

/-- C10: `expire` and `aexpire` treat `now=0` exactly like `now=None`: the
falsy zero is replaced by the wall-clock time, so the cutoff is the current
time, never the epoch value 0. -/
theorem claim_C10 (attempts : Rat → List (List (Except CacheExc Int)))
    (wall : Rat) :
    fanoutExpire attempts (Option.some 0) wall
      = fanoutExpire attempts Option.none wall ∧
    fanoutAexpire attempts (Option.some 0) wall
      = fanoutAexpire attempts Option.none wall ∧
    resolveNow (Option.some 0) wall = wall := by
  refine ⟨?_, ?_, ?_⟩ <;> simp [fanoutExpire, fanoutAexpire, resolveNow]

end TypedDiskcache
